import Mathlib

/-!
Verification of the geometry core of `libavfilter/vf_crop.c` (video crop
filter): geometry resolution (`config_input`), per-plane offset application
(`start_frame`) and vertical slice clipping (`draw_slice`).

Machine integers are modelled as `Int`; the C casts to `unsigned` in the
bound checks of `config_input` are modelled explicitly as reduction modulo
2^32 (`toUnsigned`), so that the wrap-around behaviour of the original
comparison is preserved.  C's arithmetic right shift `>>` on a (validated,
hence in all reached cases well-defined) signed value coincides with floor
division, i.e. with `Int.ediv` by the corresponding power of two, which is
what `/` denotes on `Int` below.  Pointers are modelled as integer
addresses with `0` playing the role of the null pointer, matching the
truthiness test `if (ref2->data[i])` of the C code.
-/

namespace VfCrop

/-- 2^32, the modulus of C `unsigned int` arithmetic. -/
def two32 : Nat := 4294967296

/-- Conversion of a C `int` value to `unsigned int`: reduction modulo 2^32
(for values representable in `int` this is exactly the two's-complement
reinterpretation performed by the C cast). -/
def toUnsigned (x : Int) : Nat := (x % (4294967296 : Int)).toNat

/-- The resolved crop rectangle: the `x`, `y`, `w`, `h` fields of
`CropContext` after `config_input` has run. -/
structure CropWindow where
  x : Int
  y : Int
  w : Int
  h : Int
deriving DecidableEq, Repr

/-- Per-format plane description: the `max_step` array and the `hsub`/`vsub`
log2 chroma subsampling factors stored in `CropContext`, plus the
`PIX_FMT_PAL` flag of the format descriptor consulted by `start_frame`. -/
structure PlaneLayout where
  max_step0 : Int
  max_step1 : Int
  max_step2 : Int
  max_step3 : Int
  hsub : Nat
  vsub : Nat
  has_palette : Bool
deriving DecidableEq, Repr

/-- A shallow frame reference: per-plane base addresses (`data[0..3]`, with
`0` for a null plane pointer), per-plane strides (`linesize[0..3]`) and the
logical dimensions reported by the reference. -/
structure Frame where
  data0 : Int
  data1 : Int
  data2 : Int
  data3 : Int
  linesize0 : Int
  linesize1 : Int
  linesize2 : Int
  linesize3 : Int
  w : Int
  h : Int
deriving DecidableEq, Repr

/-- Defaulting step of `config_input`: `if (crop->w == 0) crop->w = link->w - crop->x;`
(and the analogous line for the height). -/
def defaulted (requested offset input : Int) : Int :=
  if requested = 0 then input - offset else requested

/-- Alignment step of `config_input`: `crop->x &= ~((1 << crop->hsub) - 1);`.
On two's-complement integers clearing the low `k` bits rounds down to the
nearest multiple of `2^k`, i.e. subtracts the nonnegative residue `v % 2^k`. -/
def alignedDown (v : Int) (k : Nat) : Int := v - v % (2 : Int) ^ k

/-- The bound check of `config_input`, lines 102-105, exactly as written:
the first four comparisons are signed, the two sum comparisons are performed
in `unsigned` arithmetic (both summands cast, the sum reduced mod 2^32, and
the input dimension cast as well). -/
def unsignedBad (x y w h iw ih : Int) : Prop :=
  x < 0 ∨ y < 0 ∨ w ≤ 0 ∨ h ≤ 0 ∨
  (toUnsigned x + toUnsigned w) % two32 > toUnsigned iw ∨
  (toUnsigned y + toUnsigned h) % two32 > toUnsigned ih

instance (x y w h iw ih : Int) : Decidable (unsignedBad x y w h iw ih) := by
  unfold unsignedBad; infer_instance

/-- The same geometry condition stated over the mathematical integers, as the
spec states it: the resolved rectangle is degenerate or sticks out of the
input area. -/
def badGeometry (x y w h iw ih : Int) : Prop :=
  x < 0 ∨ y < 0 ∨ w ≤ 0 ∨ h ≤ 0 ∨ x + w > iw ∨ y + h > ih

instance (x y w h iw ih : Int) : Decidable (badGeometry x y w h iw ih) := by
  unfold badGeometry; infer_instance

/-- Geometry Resolver: `config_input` of `vf_crop.c`.  Takes the requested
rectangle `(px, py, pw, ph)`, the input link dimensions `(iw, ih)` and the
subsampling factors, performs defaulting (lines 91-94), alignment
(lines 96-97) and validation (lines 102-110); `none` models the
`AVERROR(EINVAL)` failure (`InvalidCropGeometry`). -/
def resolveGeometry (px py pw ph iw ih : Int) (hs vs : Nat) : Option CropWindow :=
  let w := defaulted pw px iw
  let h := defaulted ph py ih
  let x := alignedDown px hs
  let y := alignedDown py vs
  if unsignedBad x y w h iw ih then none else some ⟨x, y, w, h⟩

/-- Output Dimension Reporter: `config_output` sets the output link
dimensions from the resolved window. -/
def config_output (win : CropWindow) : Int × Int := (win.w, win.h)

/-- Slice Clipper: `draw_slice` of `vf_crop.c`.  Given the resolved window
and an incoming row range `(y, h)` of the input frame, returns `none` when
the range is rejected (lines 160-161) and otherwise the re-based range
forwarded to `avfilter_draw_slice` (lines 163-170); the direction flag is
passed through unchanged and therefore omitted. -/
def draw_slice (crop : CropWindow) (y h : Int) : Option (Int × Int) :=
  if y ≥ crop.y + crop.h ∨ y + h ≤ crop.y then
    none
  else
    let y1 := if y < crop.y then crop.y else y
    let h1 := if y < crop.y then h - (crop.y - y) else h
    let h2 := if y1 + h1 > crop.y + crop.h then crop.y + crop.h - y1 else h1
    some (y1 - crop.y, h2)

/-- Plane Offset Calculator: `start_frame` of `vf_crop.c`, returning the
frame reference forwarded downstream.  Modelled from the spec:
`avfilter_ref_buffer` (not under src/) creates a new shallow reference
aliasing the same frame storage and properties, so the logical
width/height written through the original reference (lines 131-132) are
observable on the forwarded reference.  The per-plane pointer offsets are
lines 134-150 of the source: plane 0 unconditionally, planes 1-2 only for
non-palette formats and non-null pointers (chroma coordinates reduced by
the subsampling shifts, modelled as floor division by `2^sub`), plane 3
(alpha) only when non-null. -/
def start_frame (crop : CropWindow) (ly : PlaneLayout) (f : Frame) : Frame where
  data0 := f.data0 + crop.y * f.linesize0 + crop.x * ly.max_step0
  data1 :=
    if ly.has_palette = false ∧ f.data1 ≠ 0 then
      f.data1 + (crop.y / (2 : Int) ^ ly.vsub) * f.linesize1
              + (crop.x * ly.max_step1) / (2 : Int) ^ ly.hsub
    else f.data1
  data2 :=
    if ly.has_palette = false ∧ f.data2 ≠ 0 then
      f.data2 + (crop.y / (2 : Int) ^ ly.vsub) * f.linesize2
              + (crop.x * ly.max_step2) / (2 : Int) ^ ly.hsub
    else f.data2
  data3 :=
    if f.data3 ≠ 0 then
      f.data3 + crop.y * f.linesize3 + crop.x * ly.max_step3
    else f.data3
  linesize0 := f.linesize0
  linesize1 := f.linesize1
  linesize2 := f.linesize2
  linesize3 := f.linesize3
  w := crop.w
  h := crop.h

/-- Requested crop parameters held in `CropContext` before resolution. -/
structure CropParams where
  x : Int
  y : Int
  w : Int
  h : Int
deriving DecidableEq, Repr

/-- The `init` callback.  Modelled from the spec: the host framework
zero-initializes the private `CropContext`, and `init` overwrites the four
fields only when a parameter string is supplied (the `sscanf` parse of the
string itself is glue outside the core and is abstracted as the four parsed
integers). -/
def init (args : Option (Int × Int × Int × Int)) : CropParams :=
  match args with
  | none => ⟨0, 0, 0, 0⟩
  | some (a, b, c, d) => ⟨a, b, c, d⟩

/-! ### Helper lemmas -/

/-- A value representable below 2^32 is unchanged by the cast to `unsigned`. -/
lemma toUnsigned_of_lt {a : Int} (h0 : 0 ≤ a) (h1 : a < 4294967296) :
    toUnsigned a = a.toNat := by
  unfold toUnsigned
  rw [Int.emod_eq_of_lt h0 h1]

/-- The cast to `unsigned` always lands below 2^32. -/
lemma toUnsigned_lt (x : Int) : toUnsigned x < two32 := by
  unfold toUnsigned two32
  have h1 := Int.emod_lt_of_pos x (by norm_num : (0 : Int) < 4294967296)
  have h2 := Int.emod_nonneg x (by norm_num : (4294967296 : Int) ≠ 0)
  omega

/-- For summands and bound below 2^31 the unsigned sum comparison of the C
code agrees with the mathematical one: no wrap-around can occur. -/
lemma unsigned_cmp_iff {a b c : Int} (ha0 : 0 ≤ a) (ha1 : a < 2147483648)
    (hb0 : 0 ≤ b) (hb1 : b < 2147483648) (hc0 : 0 ≤ c) (hc1 : c < 2147483648) :
    (toUnsigned a + toUnsigned b) % two32 > toUnsigned c ↔ a + b > c := by
  rw [toUnsigned_of_lt ha0 (by omega), toUnsigned_of_lt hb0 (by omega),
      toUnsigned_of_lt hc0 (by omega)]
  unfold two32
  omega

/-- Clearing the low `k` bits yields a multiple of `2^k`. -/
lemma alignedDown_emod (v : Int) (k : Nat) : alignedDown v k % 2 ^ k = 0 := by
  unfold alignedDown
  rw [Int.sub_emod, Int.emod_emod_of_dvd v dvd_rfl, sub_self, Int.zero_emod]

/-- Clearing the low `k` bits never increases the value. -/
lemma alignedDown_le (v : Int) (k : Nat) : alignedDown v k ≤ v := by
  unfold alignedDown
  exact sub_le_self v (Int.emod_nonneg v (by positivity))

/-- Clearing the low `k` bits loses less than `2^k`. -/
lemma alignedDown_lt (v : Int) (k : Nat) : v < alignedDown v k + 2 ^ k := by
  unfold alignedDown
  have h := Int.emod_lt_of_pos v (by positivity : (0 : Int) < 2 ^ k)
  linarith

/-! ### Claims about the Slice Clipper (`draw_slice`) -/

/-- C3: for every incoming slice (a nonempty row range, `0 < h`) and
validated window (`0 < crop.h`), `draw_slice` forwards nothing exactly when
the range lies entirely above (`y + h ≤ crop.y`) or entirely below
(`y ≥ crop.y + crop.h`) the crop window, and otherwise forwards the
intersection of `[y, y+h)` with `[crop.y, crop.y+crop.h)` re-based by
subtracting `crop.y`; the forwarded height is positive, so an empty slice is
never propagated downstream. -/
theorem crop_draw_slice_clip (crop : CropWindow) (y h : Int)
    (hh : 0 < h) (hwin : 0 < crop.h) :
    (draw_slice crop y h = none ↔ y + h ≤ crop.y ∨ y ≥ crop.y + crop.h) ∧
    ∀ oy oh, draw_slice crop y h = some (oy, oh) →
      oy = max y crop.y - crop.y ∧
      oh = min (y + h) (crop.y + crop.h) - max y crop.y ∧ 0 < oh := by
  simp only [draw_slice]
  split_ifs with h1 h2 h3
  · exact ⟨⟨fun _ => by omega, fun _ => rfl⟩, fun oy oh hs => by simp at hs⟩
  all_goals
    refine ⟨⟨fun hn => by simp at hn, fun hc => False.elim (by omega)⟩,
            fun oy oh hs => ?_⟩
  all_goals
    simp only [Option.some.injEq, Prod.mk.injEq] at hs
  all_goals omega

/-- C3 witness: the spec's three examples for the window `y=10, h=50`, and
the no-overlap characterization applied to the slice `(60, 5)`. -/
theorem crop_draw_slice_clip_witness :
    draw_slice ⟨0, 10, 100, 50⟩ 0 15 = some (0, 5) ∧
    draw_slice ⟨0, 10, 100, 50⟩ 60 5 = none ∧
    draw_slice ⟨0, 10, 100, 50⟩ 5 60 = some (0, 50) ∧
    (draw_slice ⟨0, 10, 100, 50⟩ 60 5 = none ↔
      (60 : Int) + 5 ≤ 10 ∨ (60 : Int) ≥ 10 + 50) :=
  ⟨by decide, by decide, by decide,
   (crop_draw_slice_clip ⟨0, 10, 100, 50⟩ 60 5 (by decide) (by decide)).1⟩

/-- C4: whenever `draw_slice` forwards a slice (incoming height positive,
window validated so `0 < crop.h`), the forwarded height is nonnegative and
at most the window height, and the forwarded start lies in
`[0, crop.h - oh]`: per-slice processing stays within bounds. -/
theorem crop_draw_slice_safe (crop : CropWindow) (y h oy oh : Int)
    (hwin : 0 < crop.h) (hh : 0 < h)
    (hs : draw_slice crop y h = some (oy, oh)) :
    0 ≤ oh ∧ oh ≤ crop.h ∧ 0 ≤ oy ∧ oy ≤ crop.h - oh := by
  simp only [draw_slice] at hs
  split_ifs at hs with h1 h2 h3
  all_goals simp only [Option.some.injEq, Prod.mk.injEq] at hs
  all_goals omega

/-- C4 witness: the clipped slice `(0, 5)` produced from input slice
`(0, 15)` against the window `y=10, h=50` is within bounds. -/
theorem crop_draw_slice_safe_witness :
    0 ≤ (5 : Int) ∧ (5 : Int) ≤ 50 ∧ 0 ≤ (0 : Int) ∧ (0 : Int) ≤ 50 - 5 :=
  crop_draw_slice_safe ⟨0, 10, 100, 50⟩ 0 15 0 5 (by decide) (by decide) (by decide)

/-! ### Claims about the Geometry Resolver (`config_input`) -/

/-- C1 counterexample: with the negative input width `-1` and requested
rectangle `0:0:1:1`, resolution succeeds even though the resolved values
violate `x + w ≤ input_w`: the cast of the input width to `unsigned` wraps
`-1` to `2^32 - 1`, so the bound check passes.  The claimed equivalence
therefore does not hold for every `input_w`. -/
theorem crop_validation_counterexample :
    resolveGeometry 0 0 1 1 (-1) 1 0 0 = some ⟨0, 0, 1, 1⟩ ∧
    badGeometry 0 0 1 1 (-1) 1 :=
  ⟨by decide, by decide⟩

/-- C1 (amended): for requested values in the 32-bit `int` range and
nonnegative input dimensions below `2^31`, resolution fails exactly when the
resolved values (after defaulting and alignment) satisfy
`x<0 ∨ y<0 ∨ w≤0 ∨ h≤0 ∨ x+w>input_w ∨ y+h>input_h`, and succeeds
otherwise; under these hypotheses the unsigned bound comparison cannot wrap,
so a negative `x` or `y` cannot evade the check. -/
theorem crop_validation_iff (px py pw ph iw ih : Int) (hs vs : Nat)
    (hpx : px < 2147483648) (hpy : py < 2147483648)
    (hpw : pw < 2147483648) (hph : ph < 2147483648)
    (hiw0 : 0 ≤ iw) (hiw1 : iw < 2147483648)
    (hih0 : 0 ≤ ih) (hih1 : ih < 2147483648) :
    resolveGeometry px py pw ph iw ih hs vs = none ↔
      badGeometry (alignedDown px hs) (alignedDown py vs)
        (defaulted pw px iw) (defaulted ph py ih) iw ih := by
  have hmain : resolveGeometry px py pw ph iw ih hs vs = none ↔
      unsignedBad (alignedDown px hs) (alignedDown py vs)
        (defaulted pw px iw) (defaulted ph py ih) iw ih := by
    simp only [resolveGeometry]
    split_ifs with hcond
    · simp [hcond]
    · simp [hcond]
  rw [hmain]
  unfold unsignedBad badGeometry
  by_cases hxneg : alignedDown px hs < 0
  · simp [hxneg]
  by_cases hyneg : alignedDown py vs < 0
  · simp [hyneg]
  by_cases hwnp : defaulted pw px iw ≤ 0
  · simp [hwnp]
  by_cases hhnp : defaulted ph py ih ≤ 0
  · simp [hhnp]
  push_neg at hxneg hyneg hwnp hhnp
  have hxle := alignedDown_le px hs
  have hyle := alignedDown_le py vs
  have hpx0 : 0 ≤ px := le_trans hxneg hxle
  have hpy0 : 0 ≤ py := le_trans hyneg hyle
  have hW1 : defaulted pw px iw < 2147483648 := by
    unfold defaulted; split <;> omega
  have hH1 : defaulted ph py ih < 2147483648 := by
    unfold defaulted; split <;> omega
  rw [unsigned_cmp_iff hxneg (by omega) (le_of_lt hwnp) hW1 hiw0 hiw1,
      unsigned_cmp_iff hyneg (by omega) (le_of_lt hhnp) hH1 hih0 hih1]

/-- C1 witness: the defaulted full-frame request on a 640x480 4:2:0 input
satisfies the equivalence; in particular it resolves successfully. -/
theorem crop_validation_iff_witness :
    resolveGeometry 0 0 0 0 640 480 1 1 = none ↔
      badGeometry (alignedDown 0 1) (alignedDown 0 1)
        (defaulted 0 0 640) (defaulted 0 0 480) 640 480 :=
  crop_validation_iff 0 0 0 0 640 480 1 1 (by decide) (by decide) (by decide)
    (by decide) (by decide) (by decide) (by decide) (by decide)

/-- C5 counterexample: requested rectangle `1:0:0:5` on a `10x10` input with
`subsampling_w = 1`.  The width defaults to `input_w - requested_x = 9`
before `x` is aligned down to `0`, so the resolved window has
`w = 9 ≠ 10 = input_w - window.x`: the defaulted dimension is not measured
from the resolved (post-alignment) offset. -/
theorem crop_defaulting_counterexample :
    resolveGeometry 1 0 0 5 10 10 1 0 = some ⟨0, 0, 9, 5⟩ ∧
    (CropWindow.mk 0 0 9 5).w ≠ 10 - (CropWindow.mk 0 0 9 5).x :=
  ⟨by decide, by decide⟩

/-- C5 (amended): when the requested width (resp. height) is zero, the
resolved window's width (resp. height) equals the input dimension minus the
*requested* offset — the subtraction of `config_input` happens before the
offset is aligned down, so the remaining extent is measured from the
requested, pre-alignment offset. -/
theorem crop_defaulting (px py pw ph iw ih : Int) (hs vs : Nat) (win : CropWindow)
    (hres : resolveGeometry px py pw ph iw ih hs vs = some win) :
    (pw = 0 → win.w = iw - px) ∧ (ph = 0 → win.h = ih - py) := by
  simp only [resolveGeometry] at hres
  split_ifs at hres with hcond
  obtain rfl : CropWindow.mk (alignedDown px hs) (alignedDown py vs)
      (defaulted pw px iw) (defaulted ph py ih) = win := by
    simpa using hres
  constructor <;> intro h0 <;> simp [defaulted, h0]

/-- C5 witness: the counterexample input instantiates the amended claim:
with requested `x = 1` and `w = 0` the resolved width is `10 - 1 = 9`. -/
theorem crop_defaulting_witness :
    ((0 : Int) = 0 → (CropWindow.mk 0 0 9 5).w = 10 - 1) ∧
    ((5 : Int) = 0 → (CropWindow.mk 0 0 9 5).h = 10 - 0) :=
  crop_defaulting 1 0 0 5 10 10 1 0 ⟨0, 0, 9, 5⟩ (by decide)

/-- C6: every successfully resolved window has `x` a multiple of
`2^subsampling_w` and `y` a multiple of `2^subsampling_h`, each obtained by
rounding the requested offset down to the nearest such multiple (it is the
greatest multiple not exceeding the request). -/
theorem crop_alignment (px py pw ph iw ih : Int) (hs vs : Nat) (win : CropWindow)
    (hres : resolveGeometry px py pw ph iw ih hs vs = some win) :
    win.x % (2 : Int) ^ hs = 0 ∧ win.y % (2 : Int) ^ vs = 0 ∧
    win.x ≤ px ∧ px < win.x + (2 : Int) ^ hs ∧
    win.y ≤ py ∧ py < win.y + (2 : Int) ^ vs := by
  simp only [resolveGeometry] at hres
  split_ifs at hres with hcond
  obtain rfl : CropWindow.mk (alignedDown px hs) (alignedDown py vs)
      (defaulted pw px iw) (defaulted ph py ih) = win := by
    simpa using hres
  exact ⟨alignedDown_emod px hs, alignedDown_emod py vs,
    alignedDown_le px hs, alignedDown_lt px hs,
    alignedDown_le py vs, alignedDown_lt py vs⟩

/-- C6 witness: request `5:3:4:4` on a `20x20` input with subsampling
`(2, 1)` resolves to the window `4:2:4:4`, whose offsets are the aligned
round-downs of `5` and `3`. -/
theorem crop_alignment_witness :
    (CropWindow.mk 4 2 4 4).x % (2 : Int) ^ (2 : Nat) = 0 ∧
    (CropWindow.mk 4 2 4 4).y % (2 : Int) ^ (1 : Nat) = 0 ∧
    (CropWindow.mk 4 2 4 4).x ≤ 5 ∧ (5 : Int) < (CropWindow.mk 4 2 4 4).x + (2 : Int) ^ (2 : Nat) ∧
    (CropWindow.mk 4 2 4 4).y ≤ 3 ∧ (3 : Int) < (CropWindow.mk 4 2 4 4).y + (2 : Int) ^ (1 : Nat) :=
  crop_alignment 5 3 4 4 20 20 2 1 ⟨4, 2, 4, 4⟩ (by decide)

/-! ### Claims about the Plane Offset Calculator (`start_frame`) -/

/-- C2: for every window, layout and frame, `start_frame` advances plane 0
by `y*stride0 + x*step0` unconditionally; each chroma plane `i ∈ {1,2}`,
when the format has no palette and the plane pointer is non-null, by
`(y >> vsub)*stride_i + (x*step_i) >> hsub` (the shifts modelled as floor
division by the corresponding power of two); and plane 3, when non-null, by
`y*stride3 + x*step3`. -/
theorem crop_plane_offsets (crop : CropWindow) (ly : PlaneLayout) (f : Frame) :
    (start_frame crop ly f).data0
      = f.data0 + crop.y * f.linesize0 + crop.x * ly.max_step0 ∧
    (ly.has_palette = false → f.data1 ≠ 0 →
      (start_frame crop ly f).data1
        = f.data1 + (crop.y / (2 : Int) ^ ly.vsub) * f.linesize1
                  + (crop.x * ly.max_step1) / (2 : Int) ^ ly.hsub) ∧
    (ly.has_palette = false → f.data2 ≠ 0 →
      (start_frame crop ly f).data2
        = f.data2 + (crop.y / (2 : Int) ^ ly.vsub) * f.linesize2
                  + (crop.x * ly.max_step2) / (2 : Int) ^ ly.hsub) ∧
    (f.data3 ≠ 0 →
      (start_frame crop ly f).data3
        = f.data3 + crop.y * f.linesize3 + crop.x * ly.max_step3) :=
  ⟨rfl,
   fun hpal h1 => by simp [start_frame, hpal, h1],
   fun hpal h2 => by simp [start_frame, hpal, h2],
   fun h3 => by simp [start_frame, h3]⟩

/-- C2 witness: the spec's 4:2:0 example — window `x=4, y=6`, luma stride
320, chroma stride 160, pixel step 1 — gives plane-0 and alpha offsets
`6*320 + 4 = 1924` and chroma offsets `(6>>1)*160 + (4>>1) = 482`. -/
theorem crop_plane_offsets_witness :
    (start_frame ⟨4, 6, 100, 80⟩ ⟨1, 1, 1, 1, 1, 1, false⟩
        ⟨10000, 20000, 30000, 40000, 320, 160, 160, 320, 640, 480⟩).data0
      = 10000 + 1924 ∧
    (start_frame ⟨4, 6, 100, 80⟩ ⟨1, 1, 1, 1, 1, 1, false⟩
        ⟨10000, 20000, 30000, 40000, 320, 160, 160, 320, 640, 480⟩).data1
      = 20000 + 482 ∧
    (start_frame ⟨4, 6, 100, 80⟩ ⟨1, 1, 1, 1, 1, 1, false⟩
        ⟨10000, 20000, 30000, 40000, 320, 160, 160, 320, 640, 480⟩).data2
      = 30000 + 482 ∧
    (start_frame ⟨4, 6, 100, 80⟩ ⟨1, 1, 1, 1, 1, 1, false⟩
        ⟨10000, 20000, 30000, 40000, 320, 160, 160, 320, 640, 480⟩).data3
      = 40000 + 1924 := by
  have h := crop_plane_offsets ⟨4, 6, 100, 80⟩ ⟨1, 1, 1, 1, 1, 1, false⟩
    ⟨10000, 20000, 30000, 40000, 320, 160, 160, 320, 640, 480⟩
  exact ⟨h.1.trans (by decide), (h.2.1 rfl (by decide)).trans (by decide),
    (h.2.2.1 rfl (by decide)).trans (by decide), (h.2.2.2 (by decide)).trans (by decide)⟩

/-- C7: on a palette format, `start_frame` leaves the base pointers of
planes 1 and 2 unchanged, whatever the window. -/
theorem crop_palette_untouched (crop : CropWindow) (ly : PlaneLayout) (f : Frame)
    (hpal : ly.has_palette = true) :
    (start_frame crop ly f).data1 = f.data1 ∧
    (start_frame crop ly f).data2 = f.data2 := by
  unfold start_frame
  simp [hpal]

/-- C7 witness: a palette layout with a nonzero window leaves the plane 1
and plane 2 pointers at their original addresses. -/
theorem crop_palette_untouched_witness :
    (start_frame ⟨8, 4, 50, 40⟩ ⟨1, 1, 1, 1, 0, 0, true⟩
      ⟨7000, 8000, 9000, 0, 100, 100, 100, 100, 64, 64⟩).data1 = 8000 ∧
    (start_frame ⟨8, 4, 50, 40⟩ ⟨1, 1, 1, 1, 0, 0, true⟩
      ⟨7000, 8000, 9000, 0, 100, 100, 100, 100, 64, 64⟩).data2 = 9000 :=
  crop_palette_untouched ⟨8, 4, 50, 40⟩ ⟨1, 1, 1, 1, 0, 0, true⟩
    ⟨7000, 8000, 9000, 0, 100, 100, 100, 100, 64, 64⟩ rfl

/-- C8: applying `start_frame` with the identity window (`x=0`, `y=0`, and
`w`, `h` the frame's current dimensions) is a no-op for every layout and
frame: all offsets add zero and the reported dimensions are unchanged. -/
theorem crop_identity_noop (ly : PlaneLayout) (f : Frame) :
    start_frame ⟨0, 0, f.w, f.h⟩ ly f = f := by
  unfold start_frame
  cases f
  simp

/-- C9: the reference forwarded downstream by `start_frame` reports the
window's width and height as its logical dimensions. -/
theorem crop_output_dimensions (crop : CropWindow) (ly : PlaneLayout) (f : Frame) :
    (start_frame crop ly f).w = crop.w ∧ (start_frame crop ly f).h = crop.h :=
  ⟨rfl, rfl⟩

/-! ### Claim about default parameters (`init` + `config_input`) -/

/-- C10: without a parameter string all four requested values stay at their
zero defaults, and for every input with positive dimensions resolution then
succeeds with the full-frame window `x=0, y=0, w=input_w, h=input_h`. -/
theorem crop_default_params_fullframe (iw ih : Int) (hs vs : Nat)
    (hiw : 0 < iw) (hih : 0 < ih) :
    init none = ⟨0, 0, 0, 0⟩ ∧
    resolveGeometry (init none).x (init none).y (init none).w (init none).h
      iw ih hs vs = some ⟨0, 0, iw, ih⟩ := by
  refine ⟨rfl, ?_⟩
  show resolveGeometry 0 0 0 0 iw ih hs vs = some ⟨0, 0, iw, ih⟩
  have hX : alignedDown 0 hs = 0 := by simp [alignedDown]
  have hY : alignedDown 0 vs = 0 := by simp [alignedDown]
  have hW : defaulted 0 0 iw = iw := by simp [defaulted]
  have hH : defaulted 0 0 ih = ih := by simp [defaulted]
  have hnot : ¬ unsignedBad 0 0 iw ih iw ih := by
    intro hbad
    unfold unsignedBad at hbad
    have h0 : toUnsigned 0 = 0 := rfl
    have hiw2 := toUnsigned_lt iw
    have hih2 := toUnsigned_lt ih
    unfold two32 at hbad hiw2 hih2
    rw [h0] at hbad
    omega
  simp only [resolveGeometry, hX, hY, hW, hH]
  rw [if_neg hnot]

/-- C10 witness: on a 640x480 4:2:0 input the zero defaults resolve to the
full-frame window. -/
theorem crop_default_params_fullframe_witness :
    init none = ⟨0, 0, 0, 0⟩ ∧
    resolveGeometry (init none).x (init none).y (init none).w (init none).h
      640 480 1 1 = some ⟨0, 0, 640, 480⟩ :=
  crop_default_params_fullframe 640 480 1 1 (by decide) (by decide)

end VfCrop
